import Mathlib

/-!
Verification of the DisCard transfer-hook program (`programs/discard-hooks`).

The Rust source is shallowly embedded: `u64` / `u16` machine integers become
`Nat` with explicit wrapping (`% 2^64`, `% 2^16`) at the additions the source
performs with the plain `+` operator (the repository ships no build profile
enabling overflow checks, so release-mode wrapping semantics apply); byte
arrays and pubkeys become `Nat` / `List Nat`; fallible instruction handlers
return `Except HookError`.
-/

namespace DisCard

/-- Modulus of the Rust `u64` type. -/
def U64_MOD : Nat := 2 ^ 64

/-- Modulus of the Rust `u16` type. -/
def U16_MOD : Nat := 2 ^ 16

/-- Wrapping `u64` addition (release-mode Rust `+` on `u64`). -/
def addU64 (a b : Nat) : Nat := (a + b) % U64_MOD

/-- Wrapping `u16` addition (release-mode Rust `+` on `u16`). -/
def addU16 (a b : Nat) : Nat := (a + b) % U16_MOD

/-- Maximum number of merchants in whitelist/blocklist (`state.rs`). -/
def MAX_MERCHANTS : Nat := 50

/-- Maximum number of MCC codes in whitelist/blocklist (`state.rs`). -/
def MAX_MCC_CODES : Nat := 100

/-- Slot timing constants from `instructions/velocity.rs`. -/
def SLOTS_PER_DAY : Nat := 216000

/-- Slots per week (`instructions/velocity.rs`). -/
def SLOTS_PER_WEEK : Nat := 1512000

/-- Slots per month (`instructions/velocity.rs`). -/
def SLOTS_PER_MONTH : Nat := 6480000

/-- Card status (`state.rs`, `CardStatus`). -/
inductive CardStatus
  | Pending
  | Active
  | Paused
  | Frozen
  | Terminated
deriving DecidableEq, Repr

/-- The hook program's error codes (`errors.rs`, `HookError`). Only the
variants reachable from the embedded instructions are listed. -/
inductive HookError
  | Unauthorized
  | CardNotActive
  | CardFrozen
  | CardTerminated
  | CardPending
  | MerchantNotWhitelisted
  | MerchantBlocked
  | MerchantWhitelistFull
  | MerchantBlocklistFull
  | MccNotWhitelisted
  | MccBlocked
  | InvalidMccCode
  | MccWhitelistFull
  | MccBlocklistFull
  | TransactionLimitExceeded
  | DailyLimitExceeded
  | WeeklyLimitExceeded
  | MonthlyLimitExceeded
  | GloballyPaused
  | ConfidentialModeNotEnabled
  | InvalidProofData
  | VelocityProofFailed
  | EncryptedCounterOverflow
deriving DecidableEq, Repr

/-- Freeze reason (`state.rs`, `FreezeReason`). -/
inductive FreezeReason
  | FraudDetected
  | UserRequest
  | AdminAction
  | VelocityBreach
  | SuspiciousActivity
  | LostOrStolen
  | ComplianceHold
deriving DecidableEq, Repr

/-- Freeze information (`state.rs`, `FreezeInfo`). Pubkeys are embedded as
`Nat`, `i64` timestamps as `Int`. -/
structure FreezeInfo where
  reason : FreezeReason
  frozen_by : Nat
  frozen_at : Int
  expires_at : Option Int
deriving DecidableEq, Repr

/-- Card policy settings (`state.rs`, `CardPolicy`). -/
structure CardPolicy where
  require_biometric : Bool
  require_2fa_above : Option Nat
  allow_international : Bool
  allow_online : Bool
  allow_atm : Bool
  allow_contactless : Bool
  contactless_limit : Nat
  allowed_countries : List Nat
  blocked_countries : List Nat
deriving DecidableEq, Repr

/-- Velocity limits (`state.rs`, `VelocityLimits`). -/
structure VelocityLimits where
  per_transaction : Nat
  daily : Nat
  weekly : Nat
  monthly : Nat
  max_daily_transactions : Nat
  max_weekly_transactions : Nat
  max_monthly_transactions : Nat
deriving DecidableEq, Repr

/-- Velocity counters (`state.rs`, `VelocityCounters`). -/
structure VelocityCounters where
  daily_total : Nat
  weekly_total : Nat
  monthly_total : Nat
  daily_transaction_count : Nat
  weekly_transaction_count : Nat
  monthly_transaction_count : Nat
  last_daily_reset_slot : Nat
  last_weekly_reset_slot : Nat
  last_monthly_reset_slot : Nat
deriving DecidableEq, Repr

/-- Record a transaction (`state.rs`, `VelocityCounters::record_transaction`).
The source uses plain `+=` on `u64` totals and `u16` counts. -/
def VelocityCounters.record_transaction (v : VelocityCounters) (amount : Nat) :
    VelocityCounters :=
  { v with
    daily_total := addU64 v.daily_total amount
    weekly_total := addU64 v.weekly_total amount
    monthly_total := addU64 v.monthly_total amount
    daily_transaction_count := addU16 v.daily_transaction_count 1
    weekly_transaction_count := addU16 v.weekly_transaction_count 1
    monthly_transaction_count := addU16 v.monthly_transaction_count 1 }

/-- Reset daily counters (`state.rs`, `VelocityCounters::reset_daily`). -/
def VelocityCounters.reset_daily (v : VelocityCounters) (current_slot : Nat) :
    VelocityCounters :=
  { v with daily_total := 0, daily_transaction_count := 0,
           last_daily_reset_slot := current_slot }

/-- Reset weekly counters (`state.rs`, `VelocityCounters::reset_weekly`). -/
def VelocityCounters.reset_weekly (v : VelocityCounters) (current_slot : Nat) :
    VelocityCounters :=
  { v with weekly_total := 0, weekly_transaction_count := 0,
           last_weekly_reset_slot := current_slot }

/-- Reset monthly counters (`state.rs`, `VelocityCounters::reset_monthly`). -/
def VelocityCounters.reset_monthly (v : VelocityCounters) (current_slot : Nat) :
    VelocityCounters :=
  { v with monthly_total := 0, monthly_transaction_count := 0,
           last_monthly_reset_slot := current_slot }

/-- Per-card configuration account (`state.rs`, `CardConfig`). Merchant ids
(32-byte arrays) and MCC codes are embedded as `Nat`; the 64-byte ElGamal
ciphertexts as `List Nat`. -/
structure CardConfig where
  bump : Nat
  card_id : Nat
  owner_did_hash : Nat
  status : CardStatus
  policy : CardPolicy
  velocity_limits : VelocityLimits
  velocity_counters : VelocityCounters
  merchant_whitelist_enabled : Bool
  merchant_whitelist : List Nat
  merchant_blocklist : List Nat
  mcc_whitelist_enabled : Bool
  mcc_whitelist : List Nat
  mcc_blocklist : List Nat
  freeze_info : Option FreezeInfo
  confidential_mode : Bool
  encrypted_daily_total : Option (List Nat)
  encrypted_weekly_total : Option (List Nat)
  encrypted_monthly_total : Option (List Nat)
  created_at : Int
  updated_at : Int
  last_transaction_at : Option Int
deriving DecidableEq, Repr

/-- Global configuration account (`state.rs`, `GlobalConfig`). -/
structure GlobalConfig where
  bump : Nat
  admin : Nat
  is_paused : Bool
  reset_authorities : List Nat
  fraud_authorities : List Nat
  default_velocity_limits : VelocityLimits
  total_cards : Nat
  total_transactions : Nat
  total_volume : Nat
  created_at : Int
  updated_at : Int
deriving DecidableEq, Repr

/-- `state.rs`, `GlobalConfig::is_authorized_fraud_authority`. -/
def GlobalConfig.is_authorized_fraud_authority (g : GlobalConfig)
    (authority : Nat) : Bool :=
  g.admin == authority || g.fraud_authorities.contains authority

/-- Velocity limit check (`state.rs`, `CardConfig::check_velocity_limits`).
The source compares `total + amount` (plain wrapping `u64` addition) against
each limit, in the order per-transaction, daily, weekly, monthly. -/
def CardConfig.check_velocity_limits (c : CardConfig) (amount : Nat) :
    Except HookError Unit :=
  if amount > c.velocity_limits.per_transaction then
    .error .TransactionLimitExceeded
  else if addU64 c.velocity_counters.daily_total amount >
      c.velocity_limits.daily then
    .error .DailyLimitExceeded
  else if addU64 c.velocity_counters.weekly_total amount >
      c.velocity_limits.weekly then
    .error .WeeklyLimitExceeded
  else if addU64 c.velocity_counters.monthly_total amount >
      c.velocity_limits.monthly then
    .error .MonthlyLimitExceeded
  else
    .ok ()

/-- Full transaction check (`state.rs`, `CardConfig::is_transaction_allowed`). -/
def CardConfig.is_transaction_allowed (c : CardConfig) (amount : Nat)
    (merchant_id : Option Nat) (mcc_code : Option Nat) :
    Except HookError Unit :=
  if c.status ≠ CardStatus.Active then
    .error .CardNotActive
  else if c.freeze_info.isSome then
    .error .CardFrozen
  else if c.merchant_whitelist_enabled &&
      (match merchant_id with
        | some mid => !(c.merchant_whitelist.contains mid)
        | none => false) then
    .error .MerchantNotWhitelisted
  else if (match merchant_id with
        | some mid => c.merchant_blocklist.contains mid
        | none => false) then
    .error .MerchantBlocked
  else if c.mcc_whitelist_enabled &&
      (match mcc_code with
        | some mcc => !(c.mcc_whitelist.contains mcc)
        | none => false) then
    .error .MccNotWhitelisted
  else if (match mcc_code with
        | some mcc => c.mcc_blocklist.contains mcc
        | none => false) then
    .error .MccBlocked
  else
    c.check_velocity_limits amount

/-- The transfer hook handler (`instructions/transfer_hook.rs`, `handler`).
The source hardcodes `merchant_id = None` and `mcc_code = None` and then calls
`is_transaction_allowed`. Its account context contains no `GlobalConfig`, so
the decision is a function of the card record and the amount alone. -/
def transfer_hook_handler (c : CardConfig) (amount : Nat) :
    Except HookError Unit :=
  c.is_transaction_allowed amount none none

/-- Counters part of the lazy window reset (`instructions/velocity.rs`,
`auto_reset_if_needed`, acting on `card_config.velocity_counters`). Each
window resets independently when the saturating slot difference reaches its
span; `Nat` subtraction is exactly Rust's `saturating_sub`. -/
def auto_reset_counters (counters : VelocityCounters) (current_slot : Nat) :
    VelocityCounters :=
  let counters :=
    if current_slot - counters.last_daily_reset_slot ≥ SLOTS_PER_DAY then
      counters.reset_daily current_slot
    else counters
  let counters :=
    if current_slot - counters.last_weekly_reset_slot ≥ SLOTS_PER_WEEK then
      counters.reset_weekly current_slot
    else counters
  let counters :=
    if current_slot - counters.last_monthly_reset_slot ≥ SLOTS_PER_MONTH then
      counters.reset_monthly current_slot
    else counters
  counters

/-- Lazy window reset (`instructions/velocity.rs`, `auto_reset_if_needed`). -/
def auto_reset_if_needed (c : CardConfig) (current_slot : Nat) : CardConfig :=
  { c with velocity_counters :=
      auto_reset_counters c.velocity_counters current_slot }

/-- The record-transaction instruction (`instructions/velocity.rs`,
`record_transaction`): lazy reset first, then mutate counters and
timestamps. -/
def record_transaction_ix (c : CardConfig) (amount : Nat)
    (current_slot : Nat) (now : Int) : CardConfig :=
  let c := auto_reset_if_needed c current_slot
  { c with
    velocity_counters := c.velocity_counters.record_transaction amount
    last_transaction_at := some now
    updated_at := now }

/-- Emergency freeze (`instructions/emergency.rs`, `freeze`). The acting
authority must be the card owner (`owner_did_hash` equals the authority key
bytes) or an authorized fraud authority. -/
def freeze (c : CardConfig) (g : GlobalConfig) (authority : Nat)
    (reason : FreezeReason) (now : Int) : Except HookError CardConfig :=
  let is_owner := c.owner_did_hash == authority
  let is_fraud_authority := g.is_authorized_fraud_authority authority
  if !is_owner && !is_fraud_authority then
    .error .Unauthorized
  else
    .ok { c with
      freeze_info := some { reason := reason, frozen_by := authority,
                            frozen_at := now, expires_at := none }
      status := CardStatus.Frozen
      updated_at := now }

/-- Unfreeze (`instructions/emergency.rs`, `unfreeze`). After the authority
check, a card with no freeze info returns `Ok` immediately, leaving the
record untouched. -/
def unfreeze (c : CardConfig) (g : GlobalConfig) (authority : Nat)
    (now : Int) : Except HookError CardConfig :=
  let is_owner := c.owner_did_hash == authority
  let is_fraud_authority := g.is_authorized_fraud_authority authority
  if !is_owner && !is_fraud_authority then
    .error .Unauthorized
  else if c.freeze_info.isNone then
    .ok c
  else
    .ok { c with
      freeze_info := none
      status := CardStatus.Active
      updated_at := now }

/-- Range proof verification (`instructions/confidential_hook.rs`,
`verify_velocity_range_proof`): the source only checks that the proof blob is
at least 64 bytes (ciphertext size); it takes the card config immutably and
otherwise accepts. -/
def verify_velocity_range_proof (proof_data : List Nat) (c : CardConfig) :
    Except HookError Unit :=
  if proof_data.length < 64 then
    .error .InvalidProofData
  else
    .ok ()

/-- Ciphertext combination (`instructions/confidential_hook.rs`,
`homomorphic_add`). The source's body copies `b` into the result and returns
it ("For now, store b as the updated value"). -/
def homomorphic_add (a b : List Nat) : List Nat := b

/-- Encrypted counter update (`instructions/confidential_hook.rs`,
`update_encrypted_counters`): takes the first 64 bytes of the proof as the
encrypted amount; for each window, combines with the existing ciphertext, or
initializes an absent total to the supplied ciphertext. -/
def update_encrypted_counters (c : CardConfig) (proof_data : List Nat) :
    Except HookError CardConfig :=
  if proof_data.length < 64 then
    .error .InvalidProofData
  else
    let encrypted_amount := proof_data.take 64
    let c :=
      match c.encrypted_daily_total with
      | some daily =>
          { c with encrypted_daily_total := some (homomorphic_add daily encrypted_amount) }
      | none => { c with encrypted_daily_total := some encrypted_amount }
    let c :=
      match c.encrypted_weekly_total with
      | some weekly =>
          { c with encrypted_weekly_total := some (homomorphic_add weekly encrypted_amount) }
      | none => { c with encrypted_weekly_total := some encrypted_amount }
    let c :=
      match c.encrypted_monthly_total with
      | some monthly =>
          { c with encrypted_monthly_total := some (homomorphic_add monthly encrypted_amount) }
      | none => { c with encrypted_monthly_total := some encrypted_amount }
    .ok c

/-- Confidential transfer hook (`instructions/confidential_hook.rs`,
`confidential_handler`). Returns the final card state and an optional error;
on every error path the state is the unmodified input, mirroring that the
source mutates the account only in `update_encrypted_counters` after all
checks pass. The source hardcodes `merchant_id = None` and `mcc_code = None`,
so its merchant and MCC branches are skips. -/
def confidential_handler (c : CardConfig) (proof_data : List Nat) :
    CardConfig × Option HookError :=
  if c.status ≠ CardStatus.Active then
    (c, some .CardNotActive)
  else if c.freeze_info.isSome then
    (c, some .CardFrozen)
  else if !c.confidential_mode then
    (c, some .ConfidentialModeNotEnabled)
  else
    match verify_velocity_range_proof proof_data c with
    | .error e => (c, some e)
    | .ok _ =>
      match update_encrypted_counters c proof_data with
      | .error e => (c, some e)
      | .ok c2 => (c2, none)

/-- Loop body of `instructions/merchant.rs`, `add_to_whitelist`: for each
merchant, the capacity check runs first, then the membership check guards the
push. -/
def add_merchants_to_whitelist_loop (wl : List Nat) (merchants : List Nat) :
    Except HookError (List Nat) :=
  match merchants with
  | [] => .ok wl
  | merchant :: rest =>
    if wl.length ≥ MAX_MERCHANTS then
      .error .MerchantWhitelistFull
    else if wl.contains merchant then
      add_merchants_to_whitelist_loop wl rest
    else
      add_merchants_to_whitelist_loop (wl ++ [merchant]) rest

/-- `instructions/merchant.rs`, `add_to_whitelist`: run the loop, enable the
whitelist if non-empty, stamp `updated_at`. -/
def merchant_add_to_whitelist (c : CardConfig) (merchants : List Nat)
    (now : Int) : Except HookError CardConfig :=
  match add_merchants_to_whitelist_loop c.merchant_whitelist merchants with
  | .error e => .error e
  | .ok wl =>
    .ok { c with
      merchant_whitelist := wl
      merchant_whitelist_enabled :=
        if wl.isEmpty then c.merchant_whitelist_enabled else true
      updated_at := now }

/-- Loop body of `instructions/merchant.rs`, `remove_from_whitelist`: remove
the first occurrence of each listed merchant, ignoring absent ones. -/
def remove_merchants_from_whitelist_loop (wl : List Nat)
    (merchants : List Nat) : List Nat :=
  match merchants with
  | [] => wl
  | merchant :: rest =>
    remove_merchants_from_whitelist_loop (wl.erase merchant) rest

/-- `instructions/merchant.rs`, `remove_from_whitelist`: run the loop,
disable the whitelist if it ends up empty, stamp `updated_at`. -/
def merchant_remove_from_whitelist (c : CardConfig) (merchants : List Nat)
    (now : Int) : CardConfig :=
  let wl := remove_merchants_from_whitelist_loop c.merchant_whitelist merchants
  { c with
    merchant_whitelist := wl
    merchant_whitelist_enabled :=
      if wl.isEmpty then false else c.merchant_whitelist_enabled
    updated_at := now }

/-- Loop body of `instructions/mcc.rs`, `add_to_whitelist`: validate the MCC
range (1..=9999) first, then the capacity check, then the membership-guarded
push. -/
def add_mcc_to_whitelist_loop (wl : List Nat) (mcc_codes : List Nat) :
    Except HookError (List Nat) :=
  match mcc_codes with
  | [] => .ok wl
  | mcc :: rest =>
    if mcc == 0 || mcc > 9999 then
      .error .InvalidMccCode
    else if wl.length ≥ MAX_MCC_CODES then
      .error .MccWhitelistFull
    else if wl.contains mcc then
      add_mcc_to_whitelist_loop wl rest
    else
      add_mcc_to_whitelist_loop (wl ++ [mcc]) rest

/-- `instructions/mcc.rs`, `add_to_whitelist`. -/
def mcc_add_to_whitelist (c : CardConfig) (mcc_codes : List Nat)
    (now : Int) : Except HookError CardConfig :=
  match add_mcc_to_whitelist_loop c.mcc_whitelist mcc_codes with
  | .error e => .error e
  | .ok wl =>
    .ok { c with
      mcc_whitelist := wl
      mcc_whitelist_enabled :=
        if wl.isEmpty then c.mcc_whitelist_enabled else true
      updated_at := now }

/-- Specification-side formulation of the velocity check (for the refinement
in claim C3): the four ceiling rules in the spec's fixed order
(per-transaction, daily, weekly, monthly) paired with their errors; the
outcome is the error of the first violated rule, if any. -/
def spec_first_violation (c : CardConfig) (amount : Nat) : Option HookError :=
  (List.find? (fun rule => rule.1)
    [ (decide (amount > c.velocity_limits.per_transaction),
        HookError.TransactionLimitExceeded),
      (decide (addU64 c.velocity_counters.daily_total amount >
        c.velocity_limits.daily), HookError.DailyLimitExceeded),
      (decide (addU64 c.velocity_counters.weekly_total amount >
        c.velocity_limits.weekly), HookError.WeeklyLimitExceeded),
      (decide (addU64 c.velocity_counters.monthly_total amount >
        c.velocity_limits.monthly), HookError.MonthlyLimitExceeded) ]).map
    (fun rule => rule.2)

/-- A permissive default policy. -/
def base_policy : CardPolicy :=
  { require_biometric := false, require_2fa_above := none,
    allow_international := true, allow_online := true, allow_atm := true,
    allow_contactless := true, contactless_limit := 10000,
    allowed_countries := [], blocked_countries := [] }

/-- All-zero velocity counters. -/
def zero_counters : VelocityCounters :=
  { daily_total := 0, weekly_total := 0, monthly_total := 0,
    daily_transaction_count := 0, weekly_transaction_count := 0,
    monthly_transaction_count := 0, last_daily_reset_slot := 0,
    last_weekly_reset_slot := 0, last_monthly_reset_slot := 0 }

/-- Generous limits for the sample card. -/
def generous_limits : VelocityLimits :=
  { per_transaction := 1000000, daily := 1000000, weekly := 1000000,
    monthly := 1000000, max_daily_transactions := 1000,
    max_weekly_transactions := 1000, max_monthly_transactions := 1000 }

/-- A fully compliant active card: active status, no freeze, empty lists,
zero counters, generous limits. -/
def base_card : CardConfig :=
  { bump := 0, card_id := 1, owner_did_hash := 7,
    status := CardStatus.Active, policy := base_policy,
    velocity_limits := generous_limits, velocity_counters := zero_counters,
    merchant_whitelist_enabled := false, merchant_whitelist := [],
    merchant_blocklist := [], mcc_whitelist_enabled := false,
    mcc_whitelist := [], mcc_blocklist := [], freeze_info := none,
    confidential_mode := true, encrypted_daily_total := none,
    encrypted_weekly_total := none, encrypted_monthly_total := none,
    created_at := 0, updated_at := 0, last_transaction_at := none }

/-- A global configuration with the pause flag set. -/
def paused_global_config : GlobalConfig :=
  { bump := 0, admin := 99, is_paused := true, reset_authorities := [],
    fraud_authorities := [11], default_velocity_limits := generous_limits,
    total_cards := 0, total_transactions := 0, total_volume := 0,
    created_at := 0, updated_at := 0 }

/-- Limits with maximal (u64::MAX) ceilings, for the overflow scenarios. -/
def max_limits : VelocityLimits :=
  { per_transaction := U64_MOD - 1, daily := U64_MOD - 1,
    weekly := U64_MOD - 1, monthly := U64_MOD - 1,
    max_daily_transactions := 1000, max_weekly_transactions := 1000,
    max_monthly_transactions := 1000 }

/-- A card whose daily total sits at u64::MAX, so any further addition
exceeds the u64 range. -/
def overflow_card : CardConfig :=
  { base_card with
    velocity_limits := max_limits,
    velocity_counters := { zero_counters with daily_total := U64_MOD - 1 } }

/-- Limits for the spec's concrete scenario (daily limit 1000). -/
def scenario_limits : VelocityLimits :=
  { per_transaction := 1000, daily := 1000, weekly := 1000000000,
    monthly := 1000000000, max_daily_transactions := 1000,
    max_weekly_transactions := 1000, max_monthly_transactions := 1000 }

/-- Card for the spec's concrete scenario: daily limit 1000, zero counters. -/
def scenario_card : CardConfig :=
  { base_card with velocity_limits := scenario_limits }

/-- The scenario card after recording the first transaction of 600. -/
def scenario_card_after : CardConfig :=
  { scenario_card with
    velocity_counters := scenario_card.velocity_counters.record_transaction 600 }

/-- A card whose daily window has fully elapsed (last reset at slot 0) while
its daily total sits at the daily limit. -/
def stale_card : CardConfig :=
  { base_card with
    velocity_limits := scenario_limits,
    velocity_counters := { zero_counters with daily_total := 1000 } }

/-- Non-active sample cards, one per non-Active status. -/
def pending_card : CardConfig := { base_card with status := CardStatus.Pending }

/-- Sample card with status Paused. -/
def paused_card : CardConfig := { base_card with status := CardStatus.Paused }

/-- Sample card with status Frozen (status only). -/
def frozen_status_card : CardConfig :=
  { base_card with status := CardStatus.Frozen }

/-- Sample card with status Terminated. -/
def terminated_card : CardConfig :=
  { base_card with status := CardStatus.Terminated }

/-- A 64-byte ciphertext of all-1 bytes. -/
def ct_a : List Nat := List.replicate 64 1

/-- A 64-byte ciphertext of all-2 bytes. -/
def ct_b : List Nat := List.replicate 64 2

/-- A confidential-mode card whose three encrypted totals are present. -/
def conf_card : CardConfig :=
  { base_card with
    encrypted_daily_total := some (List.replicate 64 9),
    encrypted_weekly_total := some (List.replicate 64 9),
    encrypted_monthly_total := some (List.replicate 64 9) }

/-- A card whose merchant whitelist is at full capacity (50 entries). -/
def full_whitelist_card : CardConfig :=
  { base_card with
    merchant_whitelist_enabled := true,
    merchant_whitelist := List.range 50 }

/-- A card whose merchant whitelist holds the single merchant 3. -/
def small_whitelist_card : CardConfig :=
  { base_card with
    merchant_whitelist_enabled := true,
    merchant_whitelist := [3] }

/-- A card whose MCC whitelist is at full capacity (100 valid codes). -/
def full_mcc_card : CardConfig :=
  { base_card with
    mcc_whitelist_enabled := true,
    mcc_whitelist := List.range' 1 100 }

deriving instance DecidableEq for Except

/-- Claim C1 — the code evaluated at the failing input. The global pause flag
is set, yet the transfer hook handler approves a transfer on a fully
compliant card: the hook's account context carries no global config, so the
authorization decision never consults `GlobalConfig.is_paused`, contradicting
the spec's mandate that the pause flag be the first check. -/
theorem c1_transfer_hook_ignores_global_pause :
    paused_global_config.is_paused = true ∧
    transfer_hook_handler base_card 100 = Except.ok () := by
  exact ⟨by decide, by decide⟩

/-- Claim C2 is false on the code at this input: the daily total sits at
u64::MAX, the amount 2 makes the true sum exceed the u64 range, yet the
velocity check reports no violation (the wrapped sum 1 passes every ceiling)
and `record_transaction` silently stores the wrapped total 1. -/
theorem c2_counterexample_silent_wraparound :
    U64_MOD ≤ overflow_card.velocity_counters.daily_total + 2 ∧
    overflow_card.check_velocity_limits 2 = Except.ok () ∧
    (overflow_card.velocity_counters.record_transaction 2).daily_total = 1 := by
  exact ⟨by decide, by decide, by decide⟩

/-- Claim C2 amended: the additions in the velocity check and in
`record_transaction` are plain wrapping u64 additions. When the true daily
sum exceeds the u64 range but every wrapped comparison passes, the check
succeeds, and the recorded daily total is the wrapped value
`daily_total + amount - 2^64` — silent wraparound, not a reported
violation. -/
theorem c2_amended_wrapping_addition (c : CardConfig) (a : Nat)
    (hd : c.velocity_counters.daily_total < U64_MOD) (ha : a < U64_MOD)
    (hov : U64_MOD ≤ c.velocity_counters.daily_total + a)
    (h1 : ¬ a > c.velocity_limits.per_transaction)
    (h2 : ¬ addU64 c.velocity_counters.daily_total a > c.velocity_limits.daily)
    (h3 : ¬ addU64 c.velocity_counters.weekly_total a > c.velocity_limits.weekly)
    (h4 : ¬ addU64 c.velocity_counters.monthly_total a > c.velocity_limits.monthly) :
    c.check_velocity_limits a = Except.ok () ∧
    (c.velocity_counters.record_transaction a).daily_total =
      c.velocity_counters.daily_total + a - U64_MOD := by
  constructor
  · simp [CardConfig.check_velocity_limits, h1, h2, h3, h4]
  · show addU64 c.velocity_counters.daily_total a = _
    unfold addU64
    have hpos : 0 < U64_MOD := by decide
    have hlt : c.velocity_counters.daily_total + a - U64_MOD < U64_MOD := by
      omega
    rw [Nat.mod_eq_sub_mod hov, Nat.mod_eq_of_lt hlt]

/-- Witness for the amended claim C2 at a concrete overflowing input. -/
theorem c2_amended_wrapping_addition_witness :
    overflow_card.check_velocity_limits 3 = Except.ok () ∧
    (overflow_card.velocity_counters.record_transaction 3).daily_total =
      overflow_card.velocity_counters.daily_total + 3 - U64_MOD :=
  c2_amended_wrapping_addition overflow_card 3 (by decide) (by decide)
    (by decide) (by decide) (by decide) (by decide) (by decide)

/-- Claim C6 is false on the code at these inputs: the four non-Active
statuses (Pending, Paused, Frozen, Terminated) all deny with the single
reason `CardNotActive` — there is no per-status distinct denial reason. -/
theorem c6_counterexample_uniform_reason :
    pending_card.is_transaction_allowed 1 none none =
      Except.error HookError.CardNotActive ∧
    paused_card.is_transaction_allowed 1 none none =
      Except.error HookError.CardNotActive ∧
    frozen_status_card.is_transaction_allowed 1 none none =
      Except.error HookError.CardNotActive ∧
    terminated_card.is_transaction_allowed 1 none none =
      Except.error HookError.CardNotActive := by
  exact ⟨by decide, by decide, by decide, by decide⟩

/-- Claim C6 amended: every card whose status is not Active is denied, always
with the one reason `CardNotActive`, regardless of amount, merchant or MCC. -/
theorem c6_amended_non_active_denies (c : CardConfig) (amount : Nat)
    (merchant_id mcc_code : Option Nat) (h : c.status ≠ CardStatus.Active) :
    c.is_transaction_allowed amount merchant_id mcc_code =
      Except.error HookError.CardNotActive := by
  unfold CardConfig.is_transaction_allowed
  rw [if_pos h]

/-- Witness for the amended claim C6 on a Pending card. -/
theorem c6_amended_non_active_denies_witness :
    pending_card.is_transaction_allowed 5 (some 4) (some 5411) =
      Except.error HookError.CardNotActive :=
  c6_amended_non_active_denies pending_card 5 (some 4) (some 5411) (by decide)

/-- Claim C7 — the code evaluated at the failing input. The encrypted-counter
update is order-dependent: starting from a card whose encrypted totals are
present, updating with ciphertext `ct_a` then `ct_b` differs from updating
with `ct_b` then `ct_a`, because `homomorphic_add` stores its second argument
instead of combining points (contradicting its own documentation). The
absent-total branch does initialize to the supplied ciphertext as claimed. -/
theorem c7_update_order_dependent :
    ((update_encrypted_counters conf_card ct_a).bind
        (fun c1 => update_encrypted_counters c1 ct_b) ≠
      (update_encrypted_counters conf_card ct_b).bind
        (fun c1 => update_encrypted_counters c1 ct_a)) ∧
    update_encrypted_counters base_card ct_a =
      Except.ok { base_card with
        encrypted_daily_total := some ct_a,
        encrypted_weekly_total := some ct_a,
        encrypted_monthly_total := some ct_a } := by
  exact ⟨by decide, by decide⟩

/-- Claim C4 is false on the code at this input: the daily window of
`stale_card` has fully elapsed at slot 216000, yet the transfer-hook
authorization check denies on the stale daily total — no lazy reset runs
before the check (the handler does not even take the current slot as input).
Resetting first and then checking approves the same transfer. -/
theorem c4_counterexample_no_reset_before_check :
    SLOTS_PER_DAY ≤ 216000 - stale_card.velocity_counters.last_daily_reset_slot ∧
    transfer_hook_handler stale_card 1 =
      Except.error HookError.DailyLimitExceeded ∧
    (auto_reset_if_needed stale_card 216000).check_velocity_limits 1 =
      Except.ok () := by
  exact ⟨by decide, by decide, by decide⟩

/-- Claim C10 is false on the code at this input: the whitelist is at full
capacity and already contains merchant 0, and re-adding merchant 0 fails with
`MerchantWhitelistFull` instead of succeeding as a no-op, because the
capacity check runs before the membership check. -/
theorem c10_counterexample_readd_at_capacity :
    full_whitelist_card.merchant_whitelist.contains 0 = true ∧
    merchant_add_to_whitelist full_whitelist_card [0] 5 =
      Except.error HookError.MerchantWhitelistFull := by
  exact ⟨by decide, by decide⟩

/-- Claim C3: the velocity check returns exactly the error of the first
violated ceiling in the fixed order per-transaction, daily, weekly, monthly
(refinement against the spec-side `spec_first_violation`), and the spec's
concrete scenario holds — with daily limit 1000 and zero counters,
authorizing 600 succeeds, recording it makes the daily total 600, and then
authorizing 500 is denied with `DailyLimitExceeded` while the daily total
(read immutably by the check) still stands at 600. -/
theorem c3_check_order_and_scenario :
    (∀ (c : CardConfig) (amount : Nat),
      c.check_velocity_limits amount =
        match spec_first_violation c amount with
        | none => Except.ok ()
        | some e => Except.error e) ∧
    scenario_card.check_velocity_limits 600 = Except.ok () ∧
    scenario_card_after.velocity_counters.daily_total = 600 ∧
    scenario_card_after.check_velocity_limits 500 =
      Except.error HookError.DailyLimitExceeded := by
  refine ⟨?_, by decide, by decide, by decide⟩
  intro c a
  unfold CardConfig.check_velocity_limits spec_first_violation
  by_cases h1 : a > c.velocity_limits.per_transaction
  · simp [List.find?, h1]
  · by_cases h2 : addU64 c.velocity_counters.daily_total a >
        c.velocity_limits.daily
    · simp [List.find?, h1, h2]
    · by_cases h3 : addU64 c.velocity_counters.weekly_total a >
          c.velocity_limits.weekly
      · simp [List.find?, h1, h2, h3]
      · by_cases h4 : addU64 c.velocity_counters.monthly_total a >
            c.velocity_limits.monthly
        · simp [List.find?, h1, h2, h3, h4]
        · simp [List.find?, h1, h2, h3, h4]

/-- Closed form of the counters-level lazy reset: each of the three windows
is governed solely by its own elapsed-span condition on the input state. -/
theorem auto_reset_counters_closed (v : VelocityCounters) (s : Nat) :
    auto_reset_counters v s =
      { daily_total :=
          if SLOTS_PER_DAY ≤ s - v.last_daily_reset_slot then 0
          else v.daily_total
        weekly_total :=
          if SLOTS_PER_WEEK ≤ s - v.last_weekly_reset_slot then 0
          else v.weekly_total
        monthly_total :=
          if SLOTS_PER_MONTH ≤ s - v.last_monthly_reset_slot then 0
          else v.monthly_total
        daily_transaction_count :=
          if SLOTS_PER_DAY ≤ s - v.last_daily_reset_slot then 0
          else v.daily_transaction_count
        weekly_transaction_count :=
          if SLOTS_PER_WEEK ≤ s - v.last_weekly_reset_slot then 0
          else v.weekly_transaction_count
        monthly_transaction_count :=
          if SLOTS_PER_MONTH ≤ s - v.last_monthly_reset_slot then 0
          else v.monthly_transaction_count
        last_daily_reset_slot :=
          if SLOTS_PER_DAY ≤ s - v.last_daily_reset_slot then s
          else v.last_daily_reset_slot
        last_weekly_reset_slot :=
          if SLOTS_PER_WEEK ≤ s - v.last_weekly_reset_slot then s
          else v.last_weekly_reset_slot
        last_monthly_reset_slot :=
          if SLOTS_PER_MONTH ≤ s - v.last_monthly_reset_slot then s
          else v.last_monthly_reset_slot } := by
  unfold auto_reset_counters
  by_cases h1 : SLOTS_PER_DAY ≤ s - v.last_daily_reset_slot <;>
  by_cases h2 : SLOTS_PER_WEEK ≤ s - v.last_weekly_reset_slot <;>
  by_cases h3 : SLOTS_PER_MONTH ≤ s - v.last_monthly_reset_slot <;>
  simp [VelocityCounters.reset_daily, VelocityCounters.reset_weekly,
    VelocityCounters.reset_monthly, h1, h2, h3]

/-- The counters-level lazy reset is idempotent at a fixed slot. -/
theorem auto_reset_counters_idem (v : VelocityCounters) (s : Nat) :
    auto_reset_counters (auto_reset_counters v s) s =
      auto_reset_counters v s := by
  rw [auto_reset_counters_closed v s, auto_reset_counters_closed]
  have hday : (0:Nat) < SLOTS_PER_DAY := by decide
  have hweek : (0:Nat) < SLOTS_PER_WEEK := by decide
  have hmonth : (0:Nat) < SLOTS_PER_MONTH := by decide
  by_cases h1 : SLOTS_PER_DAY ≤ s - v.last_daily_reset_slot <;>
  by_cases h2 : SLOTS_PER_WEEK ≤ s - v.last_weekly_reset_slot <;>
  by_cases h3 : SLOTS_PER_MONTH ≤ s - v.last_monthly_reset_slot <;>
  simp [h1, h2, h3, Nat.sub_self]

/-- The counters-level lazy reset is a no-op for slots not later than every
last-reset slot. -/
theorem auto_reset_counters_noop (v : VelocityCounters) (s : Nat)
    (hd : s ≤ v.last_daily_reset_slot) (hw : s ≤ v.last_weekly_reset_slot)
    (hm : s ≤ v.last_monthly_reset_slot) :
    auto_reset_counters v s = v := by
  rw [auto_reset_counters_closed]
  rw [Nat.sub_eq_zero_of_le hd, Nat.sub_eq_zero_of_le hw,
    Nat.sub_eq_zero_of_le hm]
  have h1 : ¬ SLOTS_PER_DAY ≤ (0:Nat) := by decide
  have h2 : ¬ SLOTS_PER_WEEK ≤ (0:Nat) := by decide
  have h3 : ¬ SLOTS_PER_MONTH ≤ (0:Nat) := by decide
  rw [if_neg h1, if_neg h1, if_neg h2, if_neg h2, if_neg h2, if_neg h3, if_neg h3, if_neg h3, if_neg h1]

/-- Claim C4 amended: the lazy reset runs in the record-transaction
instruction before the counters are mutated (not in the transfer-hook
authorization check); the reset is idempotent; and it is a no-op when called
with a slot not later than every last-reset slot (the saturating subtraction
guard). -/
theorem c4_amended_lazy_reset_semantics :
    (∀ (c : CardConfig) (a s : Nat) (now : Int),
      (record_transaction_ix c a s now).velocity_counters =
        ((auto_reset_if_needed c s).velocity_counters).record_transaction a) ∧
    (∀ (c : CardConfig) (s : Nat),
      auto_reset_if_needed (auto_reset_if_needed c s) s =
        auto_reset_if_needed c s) ∧
    (∀ (c : CardConfig) (s : Nat),
      s ≤ c.velocity_counters.last_daily_reset_slot →
      s ≤ c.velocity_counters.last_weekly_reset_slot →
      s ≤ c.velocity_counters.last_monthly_reset_slot →
      auto_reset_if_needed c s = c) := by
  refine ⟨fun c a s now => rfl, ?_, ?_⟩
  · intro c s
    show ({ c with velocity_counters :=
        auto_reset_counters (auto_reset_counters c.velocity_counters s) s } :
      CardConfig) = _
    rw [auto_reset_counters_idem]
    rfl
  · intro c s hd hw hm
    show ({ c with velocity_counters :=
        auto_reset_counters c.velocity_counters s } : CardConfig) = c
    rw [auto_reset_counters_noop c.velocity_counters s hd hw hm]

/-- Witness for the amended claim C4: resetting at slot 0 (not later than any
last-reset slot) is a no-op on the sample card. -/
theorem c4_amended_lazy_reset_semantics_witness :
    auto_reset_if_needed base_card 0 = base_card :=
  c4_amended_lazy_reset_semantics.2.2 base_card 0 (by decide) (by decide)
    (by decide)

/-- Claim C5: the range-proof verification succeeds on every proof blob of at
least 64 bytes and fails with `InvalidProofData` on every shorter blob; the
confidential handler never returns `VelocityProofFailed` on any input; and a
short proof blob leaves the card state unchanged. -/
theorem c5_proof_length_gate :
    (∀ (p : List Nat) (c : CardConfig), 64 ≤ p.length →
      verify_velocity_range_proof p c = Except.ok ()) ∧
    (∀ (p : List Nat) (c : CardConfig), p.length < 64 →
      verify_velocity_range_proof p c =
        Except.error HookError.InvalidProofData) ∧
    (∀ (c : CardConfig) (p : List Nat),
      (confidential_handler c p).2 ≠ some HookError.VelocityProofFailed) ∧
    (∀ (c : CardConfig) (p : List Nat), p.length < 64 →
      (confidential_handler c p).1 = c) := by
  refine ⟨?_, ?_, ?_, ?_⟩
  · intro p c h
    unfold verify_velocity_range_proof
    rw [if_neg (by omega)]
  · intro p c h
    unfold verify_velocity_range_proof
    rw [if_pos h]
  · intro c p
    unfold confidential_handler verify_velocity_range_proof
      update_encrypted_counters
    by_cases hp : p.length < 64 <;> split_ifs <;> simp_all
  · intro c p hp
    unfold confidential_handler verify_velocity_range_proof
    split_ifs <;> simp_all

/-- Witness for claim C5 at concrete proof blobs of lengths 64 and 3. -/
theorem c5_proof_length_gate_witness :
    verify_velocity_range_proof (List.replicate 64 0) base_card =
      Except.ok () ∧
    verify_velocity_range_proof [1, 2, 3] base_card =
      Except.error HookError.InvalidProofData ∧
    (confidential_handler base_card [1, 2, 3]).1 = base_card :=
  ⟨c5_proof_length_gate.1 (List.replicate 64 0) base_card (by decide),
   c5_proof_length_gate.2.1 [1, 2, 3] base_card (by decide),
   c5_proof_length_gate.2.2.2 base_card [1, 2, 3] (by decide)⟩

/-- Claim C8: for an authorized actor (card owner or fraud authority),
freezing then unfreezing restores status Active with no freeze info, and
unfreezing a card with no freeze info succeeds returning the record exactly
unchanged (`updated_at` included). -/
theorem c8_freeze_unfreeze_roundtrip (c : CardConfig) (g : GlobalConfig)
    (authority : Nat) (reason : FreezeReason) (t1 t2 : Int)
    (hauth : ((c.owner_did_hash == authority) ||
      g.is_authorized_fraud_authority authority) = true) :
    (∃ c2 : CardConfig,
      (freeze c g authority reason t1).bind
        (fun c1 => unfreeze c1 g authority t2) = Except.ok c2 ∧
      c2.status = CardStatus.Active ∧ c2.freeze_info = none) ∧
    (c.freeze_info = none → unfreeze c g authority t2 = Except.ok c) := by
  have hcond : (!(c.owner_did_hash == authority) &&
      !(g.is_authorized_fraud_authority authority)) = false := by
    cases ho : (c.owner_did_hash == authority) <;>
      cases hf : g.is_authorized_fraud_authority authority <;> simp_all
  constructor
  · refine ⟨{ c with
      status := CardStatus.Active
      freeze_info := none
      updated_at := t2 }, ?_, rfl, rfl⟩
    simp [freeze, unfreeze, hcond, Except.bind]
  · intro hfn
    simp [unfreeze, hcond, hfn]

/-- Witness for claim C8 with the card owner acting on the sample card. -/
theorem c8_freeze_unfreeze_roundtrip_witness :
    (∃ c2 : CardConfig,
      (freeze base_card paused_global_config 7 FreezeReason.UserRequest 5).bind
        (fun c1 => unfreeze c1 paused_global_config 7 6) = Except.ok c2 ∧
      c2.status = CardStatus.Active ∧ c2.freeze_info = none) ∧
    unfreeze base_card paused_global_config 7 6 = Except.ok base_card := by
  have h := c8_freeze_unfreeze_roundtrip base_card paused_global_config 7
    FreezeReason.UserRequest 5 6 (by decide)
  exact ⟨h.1, h.2 (by decide)⟩

/-- Claim C9: when only the daily span has elapsed, the lazy reset zeroes the
daily total and count and stamps the daily last-reset slot, while every
weekly and monthly field is left exactly unchanged. -/
theorem c9_daily_reset_frames_other_windows (c : CardConfig) (s : Nat)
    (hd : SLOTS_PER_DAY ≤ s - c.velocity_counters.last_daily_reset_slot)
    (hw : s - c.velocity_counters.last_weekly_reset_slot < SLOTS_PER_WEEK)
    (hm : s - c.velocity_counters.last_monthly_reset_slot < SLOTS_PER_MONTH) :
    (auto_reset_if_needed c s).velocity_counters =
      { c.velocity_counters with
        daily_total := 0, daily_transaction_count := 0,
        last_daily_reset_slot := s } := by
  show auto_reset_counters c.velocity_counters s = _
  rw [auto_reset_counters_closed]
  simp [hd, Nat.not_le.mpr hw, Nat.not_le.mpr hm]

/-- Witness for claim C9 at slot 216000 on the sample card (daily span just
elapsed; weekly and monthly spans not yet). -/
theorem c9_daily_reset_frames_other_windows_witness :
    (auto_reset_if_needed base_card 216000).velocity_counters =
      { base_card.velocity_counters with
        daily_total := 0, daily_transaction_count := 0,
        last_daily_reset_slot := 216000 } :=
  c9_daily_reset_frames_other_windows base_card 216000 (by decide) (by decide)
    (by decide)

/-- Claim C10 amended: adding to a full merchant whitelist fails with
`MerchantWhitelistFull` — even for an item already present, because the
capacity check runs before the membership check; below capacity, adding an
already-present item succeeds and leaves the list unchanged; a removal that
empties the whitelist disables its enabled flag; and adding a valid MCC code
to a full MCC whitelist fails with `MccWhitelistFull`. -/
theorem c10_amended_list_mutation :
    (∀ (c : CardConfig) (m : Nat) (now : Int),
      MAX_MERCHANTS ≤ c.merchant_whitelist.length →
      merchant_add_to_whitelist c [m] now =
        Except.error HookError.MerchantWhitelistFull) ∧
    (∀ (c : CardConfig) (m : Nat) (now : Int),
      c.merchant_whitelist.length < MAX_MERCHANTS →
      c.merchant_whitelist.contains m = true →
      ∃ c2 : CardConfig, merchant_add_to_whitelist c [m] now =
        Except.ok c2 ∧ c2.merchant_whitelist = c.merchant_whitelist) ∧
    (∀ (c : CardConfig) (ms : List Nat) (now : Int),
      (merchant_remove_from_whitelist c ms now).merchant_whitelist.isEmpty =
        true →
      (merchant_remove_from_whitelist c ms now).merchant_whitelist_enabled =
        false) ∧
    (∀ (c : CardConfig) (mcc : Nat) (now : Int),
      1 ≤ mcc → mcc ≤ 9999 →
      MAX_MCC_CODES ≤ c.mcc_whitelist.length →
      mcc_add_to_whitelist c [mcc] now =
        Except.error HookError.MccWhitelistFull) := by
  refine ⟨?_, ?_, ?_, ?_⟩
  · intro c m now h
    simp [merchant_add_to_whitelist, add_merchants_to_whitelist_loop, h]
  · intro c m now h1 h2
    have h2m : m ∈ c.merchant_whitelist := by simpa using h2
    have hloop : add_merchants_to_whitelist_loop c.merchant_whitelist [m] =
        Except.ok c.merchant_whitelist := by
      simp [add_merchants_to_whitelist_loop, Nat.not_le.mpr h1, h2m]
    refine ⟨{ c with
      merchant_whitelist_enabled :=
        if c.merchant_whitelist.isEmpty then c.merchant_whitelist_enabled
        else true
      updated_at := now }, ?_, rfl⟩
    simp [merchant_add_to_whitelist, hloop]
  · intro c ms now h
    simp only [merchant_remove_from_whitelist] at h ⊢
    simp [h]
  · intro c mcc now h0 h9 hfull
    have hz : (mcc == 0) = false := by
      simp only [beq_eq_false_iff_ne]
      omega
    have hr : ¬ mcc > 9999 := by omega
    simp [mcc_add_to_whitelist, add_mcc_to_whitelist_loop, hz, hr, hfull]

/-- Witness for the amended claim C10 at concrete lists. -/
theorem c10_amended_list_mutation_witness :
    merchant_add_to_whitelist full_whitelist_card [77] 5 =
      Except.error HookError.MerchantWhitelistFull ∧
    (∃ c2 : CardConfig, merchant_add_to_whitelist small_whitelist_card [3] 5 =
      Except.ok c2 ∧
      c2.merchant_whitelist = small_whitelist_card.merchant_whitelist) ∧
    (merchant_remove_from_whitelist small_whitelist_card [3]
      5).merchant_whitelist_enabled = false ∧
    mcc_add_to_whitelist full_mcc_card [500] 5 =
      Except.error HookError.MccWhitelistFull :=
  ⟨c10_amended_list_mutation.1 full_whitelist_card 77 5 (by decide),
   c10_amended_list_mutation.2.1 small_whitelist_card 3 5 (by decide)
     (by decide),
   c10_amended_list_mutation.2.2.1 small_whitelist_card [3] 5 (by decide),
   c10_amended_list_mutation.2.2.2 full_mcc_card 500 5 (by decide) (by decide)
     (by decide)⟩

end DisCard
